import Mathlib

/-!
# Verification of the WebBotX resilient element locator (`src/page/Page.ts`)

A shallow embedding of the page-object layer of the repository:

* `PageElementConfiguration`, `DEFAULT_CONFIGURATION` and the
  `Object.assign`-style configuration merge performed in the
  `PageElement` constructor;
* `PageElement.findElement` — the two-phase (locate-wait, then
  visibility-wait) bounded-retry resolution loop;
* `PageElement.getElement` — the preresolved-element shortcut;
* the per-action error wrapping of `click`, `sendKeys`, … ;
* the `PageElements` set accessor (`length`, `findByIndex`, `first`,
  `last`, `clickAll`).

The opaque selenium driver is modelled by an environment `DriverEnv`
mapping each wait attempt to its outcome; JavaScript `undefined`
element references are modelled with `Option`; thrown `Error`s are
modelled as `Except String` carrying the message string built exactly
as the source builds it.  The resolution functions additionally return
the number of locate attempts and visibility checks performed, so that
"exactly n attempts" claims are statable.
-/

/-- An element handle: an abstract reference to a live DOM element,
modelled by an identifier. -/
structure ElementHandle where
  id : Nat
deriving DecidableEq, Repr

/-- `PageElementConfiguration` (Page.ts lines 6–17): all fields optional;
`none` models an absent key. -/
structure PageElementConfiguration where
  retires : Option Nat := none
  timeout : Option Nat := none
  describe : Option String := none
  index : Option Nat := none
  element : Option ElementHandle := none
deriving DecidableEq, Repr

/-- `DEFAULT_CONFIGURATION` (Page.ts lines 19–25). -/
def DEFAULT_CONFIGURATION : PageElementConfiguration :=
  { retires := some 1
    timeout := some 5000
    describe := some "找不到定位元素"
    index := some 0
    element := none }

/-- `Object.assign({}, a, b)` on configuration objects: a key present in
`b` overrides the key of `a`. -/
def objectAssign (a b : PageElementConfiguration) : PageElementConfiguration :=
  { retires := b.retires <|> a.retires
    timeout := b.timeout <|> a.timeout
    describe := b.describe <|> a.describe
    index := b.index <|> a.index
    element := b.element <|> a.element }

/-- The merge performed in the `PageElement` constructor (Page.ts line 123):
`Object.assign({}, DEFAULT_CONFIGURATION, config)`. -/
def mergedConfig (config : PageElementConfiguration) : PageElementConfiguration :=
  objectAssign DEFAULT_CONFIGURATION config

/-- JavaScript template-literal rendering of the possibly-undefined
`describe` field. -/
def describeStr : Option String → String
  | some s => s
  | none => "undefined"

/-- The opaque browser-driving capability, restricted to what
`findElement` consults: the outcome of the `i`-th
`driver.wait(until.elementLocated …)` call (`none` = timeout error) and
of the `i`-th `driver.wait(until.elementIsVisible …)` call
(`false` = timeout error).  The `timeout` argument of `driver.wait` only
parametrises these opaque waits and is absorbed into the outcome. -/
structure DriverEnv where
  locate : Nat → Option ElementHandle
  visible : Nat → Bool

/-- The locate loop of `findElement` (Page.ts lines 132–144):
`for (let i = 0; i < retires; i++)` — wait for the element; on success
break, on failure throw
`Failed to find element using ${locator}, describe: ${describe}` iff
`i === retires - 1` (written `i + 1 = retires`, which also matches the
JavaScript comparison when `retires = 0`), else retry silently.
Recursion is on `fuel = retires - i`; fuel `0` is the loop condition
`i < retires` failing, in which case `elem` was never assigned
(result `none`).  The second component counts locate attempts. -/
def locateGo (env : DriverEnv) (locatorStr describe : String) (retires : Nat) :
    Nat → Nat → Option (Except String ElementHandle) × Nat
  | i, 0 => (none, i)
  | i, fuel + 1 =>
    match env.locate i with
    | some e => (some (.ok e), i + 1)
    | none =>
      if i + 1 = retires then
        (some (.error ("Failed to find element using " ++ locatorStr ++
          ", describe: " ++ describe)), i + 1)
      else
        locateGo env locatorStr describe retires (i + 1) fuel

/-- The visibility loop of `findElement` (Page.ts lines 146–156):
`for (let i = 0; i <= retires; i++)` — wait for visibility of `elem`;
on success break, on failure throw `Element is not visible: ${describe}`
iff `i === retires - 1`, else retry silently.  When `elem` is undefined
(`none`), `until.elementIsVisible(undefined)` throws and is caught, i.e.
the check fails.  Result `some none` = broke out visible,
`some (some msg)` = threw, `none` = loop condition `i <= retires`
exhausted without breaking.  The second component counts visibility
checks performed. -/
def visGo (env : DriverEnv) (describe : String) (retires : Nat)
    (elem : Option ElementHandle) :
    Nat → Nat → Option (Option String) × Nat
  | i, 0 => (none, i)
  | i, fuel + 1 =>
    if elem.isSome && env.visible i then
      (some none, i + 1)
    else if i + 1 = retires then
      (some (some ("Element is not visible: " ++ describe)), i + 1)
    else
      visGo env describe retires elem (i + 1) fuel

/-- `PageElement.findElement` (Page.ts lines 126–160): destructure the
merged config with defaults `retires = 1`, `timeout = 5000`; run the
locate loop then the visibility loop; return `elem` (possibly still
unassigned, modelled `none`).  Result: (thrown error or returned
element, locate attempts performed, visibility checks performed). -/
def findElement (env : DriverEnv) (cfg : PageElementConfiguration)
    (locatorStr : String) :
    Except String (Option ElementHandle) × Nat × Nat :=
  let retires := cfg.retires.getD 1
  let describe := describeStr cfg.describe
  match locateGo env locatorStr describe retires 0 retires with
  | (some (.error e), la) => (.error e, la, 0)
  | (some (.ok elem), la) =>
    match visGo env describe retires (some elem) 0 (retires + 1) with
    | (some (some e), vc) => (.error e, la, vc)
    | (some none, vc) => (.ok (some elem), la, vc)
    | (none, vc) => (.ok (some elem), la, vc)
  | (none, la) =>
    match visGo env describe retires none 0 (retires + 1) with
    | (some (some e), vc) => (.error e, la, vc)
    | (some none, vc) => (.ok none, la, vc)
    | (none, vc) => (.ok none, la, vc)

/-- `PageElement.getElement` (Page.ts lines 166–177): if
`config.element` is provided, await and return it directly; otherwise
locate and wait for visibility via `findElement`. -/
def getElement (env : DriverEnv) (cfg : PageElementConfiguration)
    (locatorStr : String) :
    Except String (Option ElementHandle) × Nat × Nat :=
  match cfg.element with
  | some e => (.ok (some e), 0, 0)
  | none => findElement env cfg locatorStr

/-! ## Per-action error wrapping (Page.ts lines 187–373)

Each action method awaits `getElement()` (whose failures propagate
unwrapped, since that call sits outside the `try`), then performs the
underlying driver action inside a `try`, rethrowing failures wrapped in
the method's own message.  The underlying action is modelled as a
function from the resolved (possibly undefined) element to an
`Except String` outcome whose error is the JavaScript string form
`${error}` of the caught value. -/

/-- Shared shape of every action method: propagate resolution failures,
wrap underlying-action failures with the method's message. -/
def actionOnElement (resolved : Except String (Option ElementHandle))
    (u : Option ElementHandle → Except String α) (wrap : String → String) :
    Except String α :=
  match resolved with
  | .error e => .error e
  | .ok oe =>
    match u oe with
    | .ok a => .ok a
    | .error d => .error (wrap d)

/-- Message of `click` (Page.ts line 192). -/
def clickErrMsg (loc err : String) : String :=
  "Failed to click on element: " ++ loc ++ "\n " ++ err

/-- Message of `contextClick` (Page.ts line 206). -/
def contextClickErrMsg (loc err : String) : String :=
  "Failed to perform right-click on element: " ++ loc ++ "\n " ++ err

/-- Message of `doubleClick` (Page.ts line 220). -/
def doubleClickErrMsg (loc err : String) : String :=
  "Failed to perform doubleClick on element: " ++ loc ++ "\n " ++ err

/-- Message of `hover` (Page.ts line 235). -/
def hoverErrMsg (loc err : String) : String :=
  "Failed to hover over element: " ++ loc ++ "\n" ++ err

/-- Message of `sendKeys` (Page.ts line 251). -/
def sendKeysErrMsg (loc err : String) : String :=
  "Failed to send keys to element: " ++ loc ++ "\n" ++ err

/-- Message of `clear` (Page.ts line 266). -/
def clearErrMsg (loc err : String) : String :=
  "Failed to clear element: " ++ loc ++ "\n" ++ err

/-- Message of `getAttribute` (Page.ts line 281). -/
def getAttributeErrMsg (name loc err : String) : String :=
  "Failed to get attribute \"" ++ name ++ "\" from element: " ++ loc ++ "\n" ++ err

/-- Message of `getText` (Page.ts line 296). -/
def getTextErrMsg (loc err : String) : String :=
  "Failed to get text from element: " ++ loc ++ "\n" ++ err

/-- Message of `getTagName` (Page.ts line 311). -/
def getTagNameErrMsg (loc err : String) : String :=
  "Failed to get tag name of element: " ++ loc ++ "\n" ++ err

/-- Message of `getTextarea` (Page.ts line 326). -/
def getTextareaErrMsg (loc err : String) : String :=
  "Failed to get text from textarea element: " ++ loc ++ "\n" ++ err

/-- Message of `isEnabled` (Page.ts line 341). -/
def isEnabledErrMsg (loc err : String) : String :=
  "Failed to check if element is enabled: " ++ loc ++ "\n" ++ err

/-- Message of `isSelected` (Page.ts line 356). -/
def isSelectedErrMsg (loc err : String) : String :=
  "Failed to check if element is selected: " ++ loc ++ "\n" ++ err

/-- Message of `isDisplayed` (Page.ts line 371). -/
def isDisplayedErrMsg (loc err : String) : String :=
  "Failed to check if element is displayed: " ++ loc ++ "\n" ++ err

/-- `PageElement.click` (Page.ts lines 187–194); `u` is the underlying
`elem.click()`. -/
def click (env : DriverEnv) (cfg : PageElementConfiguration) (locatorStr : String)
    (u : Option ElementHandle → Except String Unit) : Except String Unit :=
  actionOnElement (getElement env cfg locatorStr).1 u (clickErrMsg locatorStr)

/-- `PageElement.contextClick` (Page.ts lines 200–208). -/
def contextClick (env : DriverEnv) (cfg : PageElementConfiguration)
    (locatorStr : String) (u : Option ElementHandle → Except String Unit) :
    Except String Unit :=
  actionOnElement (getElement env cfg locatorStr).1 u (contextClickErrMsg locatorStr)

/-- `PageElement.doubleClick` (Page.ts lines 214–222). -/
def doubleClick (env : DriverEnv) (cfg : PageElementConfiguration)
    (locatorStr : String) (u : Option ElementHandle → Except String Unit) :
    Except String Unit :=
  actionOnElement (getElement env cfg locatorStr).1 u (doubleClickErrMsg locatorStr)

/-- `PageElement.hover` (Page.ts lines 229–237). -/
def hover (env : DriverEnv) (cfg : PageElementConfiguration)
    (locatorStr : String) (u : Option ElementHandle → Except String Unit) :
    Except String Unit :=
  actionOnElement (getElement env cfg locatorStr).1 u (hoverErrMsg locatorStr)

/-- `PageElement.sendKeys` (Page.ts lines 245–253); the underlying
`elem.sendKeys(text)`. -/
def sendKeys (env : DriverEnv) (cfg : PageElementConfiguration)
    (locatorStr : String) (text : String)
    (u : Option ElementHandle → String → Except String Unit) : Except String Unit :=
  actionOnElement (getElement env cfg locatorStr).1 (fun oe => u oe text)
    (sendKeysErrMsg locatorStr)

/-- `PageElement.clear` (Page.ts lines 260–268). -/
def clear (env : DriverEnv) (cfg : PageElementConfiguration)
    (locatorStr : String) (u : Option ElementHandle → Except String Unit) :
    Except String Unit :=
  actionOnElement (getElement env cfg locatorStr).1 u (clearErrMsg locatorStr)

/-- `PageElement.getAttribute` (Page.ts lines 276–283). -/
def getAttribute (env : DriverEnv) (cfg : PageElementConfiguration)
    (locatorStr : String) (attributeName : String)
    (u : Option ElementHandle → String → Except String String) : Except String String :=
  actionOnElement (getElement env cfg locatorStr).1 (fun oe => u oe attributeName)
    (getAttributeErrMsg attributeName locatorStr)

/-- `PageElement.getText` (Page.ts lines 290–298). -/
def getText (env : DriverEnv) (cfg : PageElementConfiguration)
    (locatorStr : String) (u : Option ElementHandle → Except String String) :
    Except String String :=
  actionOnElement (getElement env cfg locatorStr).1 u (getTextErrMsg locatorStr)

/-- `PageElement.getTagName` (Page.ts lines 305–313). -/
def getTagName (env : DriverEnv) (cfg : PageElementConfiguration)
    (locatorStr : String) (u : Option ElementHandle → Except String String) :
    Except String String :=
  actionOnElement (getElement env cfg locatorStr).1 u (getTagNameErrMsg locatorStr)

/-- `PageElement.getTextarea` (Page.ts lines 320–328): reads the
`value` attribute. -/
def getTextarea (env : DriverEnv) (cfg : PageElementConfiguration)
    (locatorStr : String) (u : Option ElementHandle → String → Except String String) :
    Except String String :=
  actionOnElement (getElement env cfg locatorStr).1 (fun oe => u oe "value")
    (getTextareaErrMsg locatorStr)

/-- `PageElement.isEnabled` (Page.ts lines 335–343). -/
def isEnabled (env : DriverEnv) (cfg : PageElementConfiguration)
    (locatorStr : String) (u : Option ElementHandle → Except String Bool) :
    Except String Bool :=
  actionOnElement (getElement env cfg locatorStr).1 u (isEnabledErrMsg locatorStr)

/-- `PageElement.isSelected` (Page.ts lines 350–358). -/
def isSelected (env : DriverEnv) (cfg : PageElementConfiguration)
    (locatorStr : String) (u : Option ElementHandle → Except String Bool) :
    Except String Bool :=
  actionOnElement (getElement env cfg locatorStr).1 u (isSelectedErrMsg locatorStr)

/-- `PageElement.isDisplayed` (Page.ts lines 365–373). -/
def isDisplayed (env : DriverEnv) (cfg : PageElementConfiguration)
    (locatorStr : String) (u : Option ElementHandle → Except String Bool) :
    Except String Bool :=
  actionOnElement (getElement env cfg locatorStr).1 u (isDisplayedErrMsg locatorStr)

/-! ## `PageElements` — the element-set accessor (Page.ts lines 380–478)

`elements()` re-queries the document each call; the current document
state is modelled as the list of handles the selector matches, passed
in directly.  `all()` of the spec is `elements()`, i.e. that list. -/

/-- JavaScript array subscript `l[i]`: the element for `0 ≤ i < l.length`,
`undefined` (`none`) otherwise. -/
def jsIndex (l : List α) (i : Int) : Option α :=
  if 0 ≤ i then l.get? i.toNat else none

namespace PageElements

/-- `PageElements.length` (Page.ts lines 410–413). -/
def length (elements : List ElementHandle) : Nat :=
  elements.length

/-- `PageElements.findByIndex` (Page.ts lines 421–428): throw
`Element not found at index ${index}` when `index >= elements.length`,
else return `elements[index]` (JavaScript subscript, so `undefined` for
negative `index`). -/
def findByIndex (elements : List ElementHandle) (index : Int) :
    Except String (Option ElementHandle) :=
  if (elements.length : Int) ≤ index then
    .error ("Element not found at index " ++ toString index)
  else
    .ok (jsIndex elements index)

/-- `PageElements.first` (Page.ts lines 435–441): throw
`No elements found` when empty, else return `elements[0]`. -/
def first (elements : List ElementHandle) : Except String (Option ElementHandle) :=
  if elements.length = 0 then .error "No elements found"
  else .ok (jsIndex elements 0)

/-- `PageElements.last` (Page.ts lines 448–454): throw
`No elements found` when empty, else return `elements[elements.length - 1]`. -/
def last (elements : List ElementHandle) : Except String (Option ElementHandle) :=
  if elements.length = 0 then .error "No elements found"
  else .ok (jsIndex elements ((elements.length : Int) - 1))

/-- JavaScript string form `${err}` of a thrown `Error` with message `m`. -/
def errToString (m : String) : String := "Error: " ++ m

/-- The callback of `elements.map` in `clickAll` (Page.ts lines 465–471):
`outcome` is the settlement of `element.click()` (`none` = fulfilled,
`some err` = rejected with string form `err`); a rejection is rethrown
as `点击元素失败，索引: ${index},${err}`. -/
def clickOne (index : Nat) (outcome : Option String) : Except String Unit :=
  match outcome with
  | none => .ok ()
  | some err =>
    .error ("点击元素失败，索引: " ++ toString index ++ "," ++ err)

/-- `elements.map((element, index) => …)`: the callback receives each
element together with its index; every callback is invoked. -/
def mapWithIndexGo (f : Nat → α → β) : Nat → List α → List β
  | _, [] => []
  | i, x :: xs => f i x :: mapWithIndexGo f (i + 1) xs

/-- `elements.map` with the index argument, starting at `0`. -/
def mapWithIndex (f : Nat → α → β) (l : List α) : List β :=
  mapWithIndexGo f 0 l

/-- `Promise.all` over already-issued promises: fulfilled iff every
promise is fulfilled, otherwise rejected with the earliest rejection.
The pure model carries no timing, so "earliest" is taken in index
order (clicks settling in issue order). -/
def promiseAll : List (Except String Unit) → Except String Unit
  | [] => .ok ()
  | .ok _ :: rest => promiseAll rest
  | .error e :: _ => .error e

/-- `PageElements.clickAll` (Page.ts lines 461–477): map every element
to a click promise (all clicks are issued by `map` before `Promise.all`
settles), join with `Promise.all`, and wrap any rejection `err` as
`点击元素失败: ${err}`.  `outcomes` lists each element's click
settlement in document order. -/
def clickAll (outcomes : List (Option String)) : Except String Unit :=
  match promiseAll (mapWithIndex clickOne outcomes) with
  | .ok _ => .ok ()
  | .error e => .error ("点击元素失败: " ++ errToString e)

/-- The indices whose click is issued by the `elements.map` call in
`clickAll`: `map` invokes its callback on every element of the set,
regardless of any other element's outcome. -/
def clickAllIssued (outcomes : List (Option String)) : List Nat :=
  mapWithIndex (fun i _ => i) outcomes

/-- The first rejected click in index order, with its index and detail:
the rejection `Promise.all` reports under the in-order settlement
model. -/
def firstFailure : List (Option String) → Option (Nat × String)
  | [] => none
  | none :: xs => (firstFailure xs).map fun p => (p.1 + 1, p.2)
  | some d :: _ => some (0, d)

end PageElements

/-! ## Concrete driver environments used by witnesses and counterexamples -/

/-- A driver on which every locate wait and every visibility wait times out. -/
def envAllFail : DriverEnv := { locate := fun _ => none, visible := fun _ => false }

/-- A driver that locates element `⟨7⟩` on every attempt but on which
every visibility wait times out. -/
def envLocOnly : DriverEnv := { locate := fun _ => some ⟨7⟩, visible := fun _ => false }

/-- A driver that locates element `⟨7⟩` on every attempt and whose
visibility wait fails on the 1st check and succeeds on the 2nd. -/
def envVis2 : DriverEnv := { locate := fun _ => some ⟨7⟩, visible := fun i => i == 1 }

/-! ## Loop lemmas -/

/-- If every locate wait times out, the locate loop runs all `n`
attempts and throws on the final one. -/
theorem locateGo_all_fail (env : DriverEnv) (loc d : String) (n : Nat)
    (hfail : ∀ i, env.locate i = none) :
    ∀ fuel i, i + fuel = n → 1 ≤ fuel →
      locateGo env loc d n i fuel =
        (some (.error ("Failed to find element using " ++ loc ++
          ", describe: " ++ d)), n) := by
  intro fuel
  induction fuel with
  | zero => intro i _ h; omega
  | succ f ih =>
    intro i hin _
    by_cases hlast : i + 1 = n
    · simp only [locateGo, hfail i, if_pos hlast, hlast]
      simp
    · have hf : 1 ≤ f := by omega
      simp only [locateGo, hfail i, if_neg hlast]
      exact ih (i + 1) (by omega) hf

/-- If the locate wait first succeeds on attempt `k < n` (failing on all
earlier attempts), the locate loop breaks out with that element after
`k + 1` attempts. -/
theorem locateGo_succeeds (env : DriverEnv) (loc d : String) (n k : Nat)
    (e : ElementHandle) (hk : env.locate k = some e)
    (hbefore : ∀ j, j < k → env.locate j = none) :
    ∀ fuel i, i + fuel = n → i ≤ k → k < n →
      locateGo env loc d n i fuel = (some (.ok e), k + 1) := by
  intro fuel
  induction fuel with
  | zero => intro i h hik hkn; omega
  | succ f ih =>
    intro i hin hik hkn
    by_cases hi : i = k
    · subst hi
      simp only [locateGo, hk]
    · have hlt : i < k := by omega
      have hne : ¬ (i + 1 = n) := by omega
      simp only [locateGo, hbefore i hlt, if_neg hne]
      exact ih (i + 1) (by omega) (by omega) hkn

/-- If every visibility wait fails, the visibility loop performs checks
`0, …, n - 1` and throws on check index `n - 1`, i.e. after `n` failed
checks (for `n ≥ 1`), regardless of the `i <= retires` loop bound. -/
theorem visGo_all_fail (env : DriverEnv) (d : String) (n : Nat)
    (elem : Option ElementHandle) (hvis : ∀ i, env.visible i = false) :
    ∀ fuel i, i + 1 ≤ n → i + fuel = n + 1 →
      visGo env d n elem i fuel =
        (some (some ("Element is not visible: " ++ d)), n) := by
  intro fuel
  induction fuel with
  | zero => intro i h hin; omega
  | succ f ih =>
    intro i hi1 hin
    by_cases hlast : i + 1 = n
    · simp only [visGo, hvis i, Bool.and_false, if_pos hlast, hlast]
      simp
    · have : i + 1 + 1 ≤ n := by omega
      simp only [visGo, hvis i, Bool.and_false, if_neg hlast]
      simp only [Bool.false_eq_true, if_false]
      exact ih (i + 1) this (by omega)

/-! ## Claims C1, C2, C4, C5 -/

/-- C1: for every configuration with `maxAttempts = n ≥ 1`, if the
locate wait fails on every attempt, `findElement` performs exactly `n`
locate attempts — never fewer — silently retrying after each non-final
failure, then throws the locate error carrying the selector and the
configured description (and performs no visibility check). -/
theorem c1_locate_fails_after_exactly_n_attempts
    (env : DriverEnv) (cfg : PageElementConfiguration) (loc : String) (n : Nat)
    (hn : 1 ≤ n) (hr : cfg.retires = some n)
    (hfail : ∀ i, env.locate i = none) :
    findElement env cfg loc =
      (.error ("Failed to find element using " ++ loc ++
        ", describe: " ++ describeStr cfg.describe), n, 0) := by
  have h := locateGo_all_fail env loc (describeStr cfg.describe) n hfail n 0
    (by omega) hn
  simp only [findElement, hr, Option.getD_some, h]

/-- Witness for C1: with `retires = 3` and a driver that never locates,
resolution makes exactly 3 locate attempts, then fails. -/
theorem c1_witness :
    findElement envAllFail (mergedConfig { retires := some 3 }) "By(css selector, #kw)" =
      (.error ("Failed to find element using By(css selector, #kw), describe: 找不到定位元素"),
        3, 0) :=
  c1_locate_fails_after_exactly_n_attempts envAllFail
    (mergedConfig { retires := some 3 }) "By(css selector, #kw)" 3
    (by decide) rfl (fun _ => rfl)

/-- C2 counterexample: with `maxAttempts = 1` (the merged default) and a
driver that locates immediately but never reports the element visible,
resolution throws the visibility error after exactly 1 failed visibility
check — not after `maxAttempts + 1 = 2` — and the thrown message does
not contain the selector. -/
theorem c2_counterexample :
    findElement envLocOnly (mergedConfig {}) "LOC" =
      (.error "Element is not visible: 找不到定位元素", 1, 1) ∧
    (1 : Nat) ≠ 1 + 1 ∧
    ¬ ("LOC".data <:+: ("Element is not visible: 找不到定位元素").data) :=
  ⟨rfl, by decide, by decide⟩

/-- C2 (amended): after the locate phase succeeds (first success on
attempt `k < n`), resolution performs at most `maxAttempts = n`
visibility checks — the loop bound allows `n + 1` iterations but the
throw condition fires on check index `n - 1` — and, when every check
fails, throws after exactly `n` failed checks a visibility error
carrying the configured description but not the selector. -/
theorem c2_visibility_error_after_n_checks
    (env : DriverEnv) (cfg : PageElementConfiguration) (loc : String)
    (n k : Nat) (e : ElementHandle)
    (hn : 1 ≤ n) (hr : cfg.retires = some n)
    (hk : k < n) (hloc : env.locate k = some e)
    (hbefore : ∀ j, j < k → env.locate j = none)
    (hvis : ∀ i, env.visible i = false) :
    findElement env cfg loc =
      (.error ("Element is not visible: " ++ describeStr cfg.describe), k + 1, n) := by
  have hl := locateGo_succeeds env loc (describeStr cfg.describe) n k e hloc hbefore
    n 0 (by omega) (by omega) hk
  have hv := visGo_all_fail env (describeStr cfg.describe) n (some e) hvis
    (n + 1) 0 (by omega) (by omega)
  simp only [findElement, hr, Option.getD_some, hl, hv]

/-- Witness for the amended C2: with `retires = 2`, immediate locate and
never-visible element, the visibility error comes after exactly 2
checks. -/
theorem c2_witness :
    findElement envLocOnly (mergedConfig { retires := some 2 }) "LOC" =
      (.error "Element is not visible: 找不到定位元素", 1, 2) :=
  c2_visibility_error_after_n_checks envLocOnly (mergedConfig { retires := some 2 })
    "LOC" 2 0 ⟨7⟩ (by decide) rfl (by decide) rfl
    (fun j hj => absurd hj (by omega)) (fun _ => rfl)

/-- C4: whenever the configuration carries a preresolved element,
`getElement` returns it directly, performing zero locate attempts and
zero visibility checks. -/
theorem c4_preresolved_skips_phases (env : DriverEnv)
    (cfg : PageElementConfiguration) (loc : String) (e : ElementHandle)
    (h : cfg.element = some e) :
    getElement env cfg loc = (.ok (some e), 0, 0) := by
  simp only [getElement, h]

/-- Witness for C4: a preresolved element is returned unchanged even on
a driver whose every wait fails. -/
theorem c4_witness :
    getElement envAllFail (mergedConfig { element := some ⟨9⟩ }) "LOC" =
      (.ok (some ⟨9⟩), 0, 0) :=
  c4_preresolved_skips_phases envAllFail (mergedConfig { element := some ⟨9⟩ })
    "LOC" ⟨9⟩ rfl

/-- C5: with `maxAttempts = 3` and a located element whose visibility
check fails on the 1st attempt and succeeds on the 2nd, resolution
performs exactly 2 visibility checks and `click()` then succeeds. -/
theorem c5_visible_on_second_check_click_succeeds :
    findElement envVis2 (mergedConfig { retires := some 3 }) "LOC" =
      (.ok (some ⟨7⟩), 1, 2) ∧
    click envVis2 (mergedConfig { retires := some 3 }) "LOC" (fun _ => .ok ()) =
      .ok () :=
  ⟨rfl, rfl⟩

/-! ## String-embedding helpers -/

/-- `String.append` concatenates the character lists. -/
theorem data_append (a b : String) : (a ++ b).data = a.data ++ b.data := by
  cases a; cases b; rfl

/-- In a message of shape `p ++ loc ++ mid ++ d`, both `loc` and `d`
occur as contiguous substrings. -/
theorem embeds_both (p mid loc d : String) :
    loc.data <:+: (p ++ loc ++ mid ++ d).data ∧
    d.data <:+: (p ++ loc ++ mid ++ d).data := by
  constructor
  · exact ⟨p.data, mid.data ++ d.data, by simp [data_append]⟩
  · exact ⟨(p ++ loc ++ mid).data, [], by simp [data_append]⟩

/-! ## Claim C6 -/

/-- C6 counterexample: a `click` on a resolved element whose underlying
click fails produces the message
`Failed to click on element: ${locator}\n ${error}`, which does not
contain the configured description (`DESC` here) at all — the claim
that every action error embeds the configured description is false. -/
theorem c6_counterexample :
    click envAllFail (mergedConfig { element := some ⟨9⟩, describe := some "DESC" })
      "LOC" (fun _ => .error "Error: boom") =
      .error "Failed to click on element: LOC\n Error: boom" ∧
    ¬ ("DESC".data <:+: ("Failed to click on element: LOC\n Error: boom").data) :=
  ⟨rfl, by decide⟩

/-- C6 (amended): for every action operation of the Locator (`click`,
`contextClick`, `doubleClick`, `hover`, `sendKeys`, `clear`,
`getAttribute`, `getText`, `getTagName`, the textarea read, `isEnabled`,
`isSelected`, `isDisplayed`), when the underlying browser action on the
resolved element fails, the operation fails with an error that embeds
the selector and the underlying failure detail — but not the configured
description. -/
theorem c6_action_errors_embed_selector_and_detail
    (env : DriverEnv) (cfg : PageElementConfiguration) (loc : String)
    (oe : Option ElementHandle) (d text name : String)
    (hge : (getElement env cfg loc).1 = .ok oe) :
    ((∀ u, u oe = .error d → click env cfg loc u = .error (clickErrMsg loc d)) ∧
      loc.data <:+: (clickErrMsg loc d).data ∧ d.data <:+: (clickErrMsg loc d).data) ∧
    ((∀ u, u oe = .error d →
        contextClick env cfg loc u = .error (contextClickErrMsg loc d)) ∧
      loc.data <:+: (contextClickErrMsg loc d).data ∧
      d.data <:+: (contextClickErrMsg loc d).data) ∧
    ((∀ u, u oe = .error d →
        doubleClick env cfg loc u = .error (doubleClickErrMsg loc d)) ∧
      loc.data <:+: (doubleClickErrMsg loc d).data ∧
      d.data <:+: (doubleClickErrMsg loc d).data) ∧
    ((∀ u, u oe = .error d → hover env cfg loc u = .error (hoverErrMsg loc d)) ∧
      loc.data <:+: (hoverErrMsg loc d).data ∧ d.data <:+: (hoverErrMsg loc d).data) ∧
    ((∀ u, u oe text = .error d →
        sendKeys env cfg loc text u = .error (sendKeysErrMsg loc d)) ∧
      loc.data <:+: (sendKeysErrMsg loc d).data ∧
      d.data <:+: (sendKeysErrMsg loc d).data) ∧
    ((∀ u, u oe = .error d → clear env cfg loc u = .error (clearErrMsg loc d)) ∧
      loc.data <:+: (clearErrMsg loc d).data ∧ d.data <:+: (clearErrMsg loc d).data) ∧
    ((∀ u, u oe name = .error d →
        getAttribute env cfg loc name u = .error (getAttributeErrMsg name loc d)) ∧
      loc.data <:+: (getAttributeErrMsg name loc d).data ∧
      d.data <:+: (getAttributeErrMsg name loc d).data) ∧
    ((∀ u, u oe = .error d → getText env cfg loc u = .error (getTextErrMsg loc d)) ∧
      loc.data <:+: (getTextErrMsg loc d).data ∧
      d.data <:+: (getTextErrMsg loc d).data) ∧
    ((∀ u, u oe = .error d →
        getTagName env cfg loc u = .error (getTagNameErrMsg loc d)) ∧
      loc.data <:+: (getTagNameErrMsg loc d).data ∧
      d.data <:+: (getTagNameErrMsg loc d).data) ∧
    ((∀ u, u oe "value" = .error d →
        getTextarea env cfg loc u = .error (getTextareaErrMsg loc d)) ∧
      loc.data <:+: (getTextareaErrMsg loc d).data ∧
      d.data <:+: (getTextareaErrMsg loc d).data) ∧
    ((∀ u, u oe = .error d → isEnabled env cfg loc u = .error (isEnabledErrMsg loc d)) ∧
      loc.data <:+: (isEnabledErrMsg loc d).data ∧
      d.data <:+: (isEnabledErrMsg loc d).data) ∧
    ((∀ u, u oe = .error d →
        isSelected env cfg loc u = .error (isSelectedErrMsg loc d)) ∧
      loc.data <:+: (isSelectedErrMsg loc d).data ∧
      d.data <:+: (isSelectedErrMsg loc d).data) ∧
    ((∀ u, u oe = .error d →
        isDisplayed env cfg loc u = .error (isDisplayedErrMsg loc d)) ∧
      loc.data <:+: (isDisplayedErrMsg loc d).data ∧
      d.data <:+: (isDisplayedErrMsg loc d).data) := by
  have hwrap : ∀ {α : Type} (u : Option ElementHandle → Except String α)
      (w : String → String), u oe = .error d →
      actionOnElement (getElement env cfg loc).1 u w = .error (w d) := by
    intro α u w hu
    simp only [actionOnElement, hge, hu]
  refine ⟨⟨fun u hu => hwrap u _ hu, ?_⟩,
    ⟨fun u hu => hwrap u _ hu, ?_⟩,
    ⟨fun u hu => hwrap u _ hu, ?_⟩,
    ⟨fun u hu => hwrap u _ hu, ?_⟩,
    ⟨fun u hu => hwrap (fun oe => u oe text) _ hu, ?_⟩,
    ⟨fun u hu => hwrap u _ hu, ?_⟩,
    ⟨fun u hu => hwrap (fun oe => u oe name) _ hu, ?_⟩,
    ⟨fun u hu => hwrap u _ hu, ?_⟩,
    ⟨fun u hu => hwrap u _ hu, ?_⟩,
    ⟨fun u hu => hwrap (fun oe => u oe "value") _ hu, ?_⟩,
    ⟨fun u hu => hwrap u _ hu, ?_⟩,
    ⟨fun u hu => hwrap u _ hu, ?_⟩,
    ⟨fun u hu => hwrap u _ hu, ?_⟩⟩
  · exact embeds_both "Failed to click on element: " "\n " loc d
  · exact embeds_both "Failed to perform right-click on element: " "\n " loc d
  · exact embeds_both "Failed to perform doubleClick on element: " "\n " loc d
  · exact embeds_both "Failed to hover over element: " "\n" loc d
  · exact embeds_both "Failed to send keys to element: " "\n" loc d
  · exact embeds_both "Failed to clear element: " "\n" loc d
  · exact embeds_both ("Failed to get attribute \"" ++ name ++ "\" from element: ")
      "\n" loc d
  · exact embeds_both "Failed to get text from element: " "\n" loc d
  · exact embeds_both "Failed to get tag name of element: " "\n" loc d
  · exact embeds_both "Failed to get text from textarea element: " "\n" loc d
  · exact embeds_both "Failed to check if element is enabled: " "\n" loc d
  · exact embeds_both "Failed to check if element is selected: " "\n" loc d
  · exact embeds_both "Failed to check if element is displayed: " "\n" loc d

/-- Witness for the amended C6: a concrete failing click wraps the
underlying detail with the selector-bearing click message. -/
theorem c6_witness :
    click envAllFail (mergedConfig { element := some ⟨9⟩ }) "LOC"
      (fun _ => .error "Error: boom") = .error (clickErrMsg "LOC" "Error: boom") :=
  ((c6_action_errors_embed_selector_and_detail envAllFail
      (mergedConfig { element := some ⟨9⟩ }) "LOC" (some ⟨9⟩) "Error: boom" "t" "n"
      rfl).1).1 (fun _ => .error "Error: boom") rfl

/-! ## Claim C3 -/

/-- `elements.map` invokes its callback on every element: the issued
index list from start `k` is `k, k+1, …`. -/
theorem mapWithIndexGo_indices (l : List (Option String)) :
    ∀ k, PageElements.mapWithIndexGo (fun i _ => i) k l = List.range' k l.length := by
  induction l with
  | nil => intro k; simp [PageElements.mapWithIndexGo]
  | cons x xs ih =>
    intro k
    simp [PageElements.mapWithIndexGo, ih (k + 1), List.range'_succ]

/-- If no click rejects, `Promise.all` over the mapped clicks fulfills. -/
theorem promiseAll_ok_of_no_failure (outcomes : List (Option String)) :
    ∀ k, PageElements.firstFailure outcomes = none →
      PageElements.promiseAll
        (PageElements.mapWithIndexGo PageElements.clickOne k outcomes) = .ok () := by
  induction outcomes with
  | nil => intro k _; rfl
  | cons o xs ih =>
    intro k h
    cases o with
    | some d => simp [PageElements.firstFailure] at h
    | none =>
      have hx : PageElements.firstFailure xs = none := by
        simpa [PageElements.firstFailure, Option.map_eq_none'] using h
      simpa [PageElements.mapWithIndexGo, PageElements.clickOne,
        PageElements.promiseAll] using ih (k + 1) hx

/-- `Promise.all` over the mapped clicks rejects with the message built
from the first rejecting click (in settlement order) and its index. -/
theorem promiseAll_first_failure (outcomes : List (Option String)) :
    ∀ k i d, PageElements.firstFailure outcomes = some (i, d) →
      PageElements.promiseAll
        (PageElements.mapWithIndexGo PageElements.clickOne k outcomes) =
        .error ("点击元素失败，索引: " ++ toString (k + i) ++ "," ++ d) := by
  induction outcomes with
  | nil => intro k i d h; simp [PageElements.firstFailure] at h
  | cons o xs ih =>
    intro k i d h
    cases o with
    | some d' =>
      simp only [PageElements.firstFailure, Option.some.injEq, Prod.mk.injEq] at h
      obtain ⟨hi, hd⟩ := h
      subst hi; subst hd
      simp [PageElements.mapWithIndexGo, PageElements.clickOne,
        PageElements.promiseAll]
    | none =>
      simp only [PageElements.firstFailure, Option.map_eq_some'] at h
      obtain ⟨⟨i', d'⟩, hx, hpd⟩ := h
      simp only [Prod.mk.injEq] at hpd
      obtain ⟨hi, hd⟩ := hpd
      subst hd
      have hk : k + 1 + i' = k + i := by omega
      have := ih (k + 1) i' d' hx
      rw [hk] at this
      simpa [PageElements.mapWithIndexGo, PageElements.clickOne,
        PageElements.promiseAll] using this

/-- C3 counterexample: over five elements where the clicks at indices 1
and 3 reject (details `E1`, `E3`), `clickAll` rejects with a message
reporting only the failure at index 1 — the detail `E3` of the other
failure appears nowhere, so the error does not list every per-element
failure, and the overall promise settles at the first rejection rather
than joining on all outcomes. -/
theorem c3_counterexample :
    PageElements.clickAll [none, some "E1", none, some "E3", none] =
      .error "点击元素失败: Error: 点击元素失败，索引: 1,E1" ∧
    ¬ ("E3".data <:+: ("点击元素失败: Error: 点击元素失败，索引: 1,E1").data) :=
  ⟨rfl, by decide⟩

/-- C3 (amended): `clickAll()` issues a click on every matched element
(each element exactly once, via `elements.map`), but joins with
`Promise.all`, which fails fast: if every click fulfills it returns
successfully, and otherwise it rejects with an error carrying only the
first (in settlement order, modelled as index order) rejecting
element's index and underlying detail, not an aggregate of every
failure. -/
theorem c3_clickAll_reports_first_failure_only (outcomes : List (Option String)) :
    PageElements.clickAllIssued outcomes = List.range outcomes.length ∧
    (PageElements.firstFailure outcomes = none →
      PageElements.clickAll outcomes = .ok ()) ∧
    ∀ i d, PageElements.firstFailure outcomes = some (i, d) →
      PageElements.clickAll outcomes =
        .error ("点击元素失败: " ++ PageElements.errToString
          ("点击元素失败，索引: " ++ toString i ++ "," ++ d)) := by
  refine ⟨?_, ?_, ?_⟩
  · simp [PageElements.clickAllIssued, PageElements.mapWithIndex,
      mapWithIndexGo_indices outcomes 0, List.range_eq_range']
  · intro h
    simp [PageElements.clickAll, PageElements.mapWithIndex,
      promiseAll_ok_of_no_failure outcomes 0 h]
  · intro i d h
    have := promiseAll_first_failure outcomes 0 i d h
    simp only [Nat.zero_add] at this
    simp [PageElements.clickAll, PageElements.mapWithIndex, this,
      PageElements.errToString]

/-- Witness for the amended C3: one failing click at index 0 yields the
wrapped single-failure message. -/
theorem c3_witness :
    PageElements.clickAll [some "B", none] =
      .error ("点击元素失败: " ++ PageElements.errToString
        ("点击元素失败，索引: " ++ toString 0 ++ ",B")) :=
  (c3_clickAll_reports_first_failure_only [some "B", none]).2.2 0 "B" rfl

/-! ## Claims C7, C8, C10 -/

/-- C7: for every index `i ≥ 0`, `findByIndex` throws the
index-out-of-range error when `i ≥ length`, and for `i < length`
returns the element `elements[i]` — the same handle `elements()`
(the spec's `all()`) yields at position `i` on the same document
state. -/
theorem c7_findByIndex_bounds (elements : List ElementHandle) (i : Nat) :
    (elements.length ≤ i →
      PageElements.findByIndex elements i =
        .error ("Element not found at index " ++ toString (i : Int))) ∧
    ∀ h : i < elements.length,
      PageElements.findByIndex elements i = .ok (some (elements.get ⟨i, h⟩)) := by
  constructor
  · intro h
    have hle : (elements.length : Int) ≤ (i : Int) := by exact_mod_cast h
    simp [PageElements.findByIndex, hle]
  · intro h
    have hlt : ¬ ((elements.length : Int) ≤ (i : Int)) := by exact_mod_cast not_le.mpr h
    simp [PageElements.findByIndex, hlt, jsIndex, List.get?_eq_get h]

/-- Witness for C7: on a two-element set, index 2 throws and index 1
returns the second handle. -/
theorem c7_witness :
    PageElements.findByIndex [⟨10⟩, ⟨20⟩] 2 =
      .error "Element not found at index 2" ∧
    PageElements.findByIndex [⟨10⟩, ⟨20⟩] 1 = .ok (some ⟨20⟩) :=
  ⟨(c7_findByIndex_bounds [⟨10⟩, ⟨20⟩] 2).1 (by decide),
   (c7_findByIndex_bounds [⟨10⟩, ⟨20⟩] 1).2 (by decide)⟩

/-- C8: when the selector matches zero elements, `first()` and `last()`
each throw `No elements found` and `length()` returns 0. -/
theorem c8_empty_set_first_last_count :
    PageElements.first [] = .error "No elements found" ∧
    PageElements.last [] = .error "No elements found" ∧
    PageElements.length [] = 0 :=
  ⟨rfl, rfl, rfl⟩

/-- C10: for every negative index, the bound check of `findByIndex`
compares only against the upper bound, so the call does not throw the
index-out-of-range error and resolves to the undefined handle
(`elements[i]` for negative `i`). -/
theorem c10_negative_index_resolves_undefined (elements : List ElementHandle)
    (i : Int) (hneg : i < 0) :
    PageElements.findByIndex elements i = .ok none := by
  have h1 : ¬ ((elements.length : Int) ≤ i) := by
    have : (0 : Int) ≤ (elements.length : Int) := Int.ofNat_nonneg _
    omega
  have h2 : ¬ ((0 : Int) ≤ i) := by omega
  simp [PageElements.findByIndex, h1, jsIndex, h2]

/-- Witness for C10: `findByIndex` at index `-1` of a one-element set
returns the undefined handle without an error. -/
theorem c10_witness :
    PageElements.findByIndex [⟨5⟩] (-1) = .ok none :=
  c10_negative_index_resolves_undefined [⟨5⟩] (-1) (by decide)

/-! ## Claim C9 -/

/-- C9: the merged configuration takes the defaults `retires = 1`,
`timeout = 5000`, `describe = 找不到定位元素` (the generic
element-not-found message), `index = 0`, `element` absent for every
field the caller omits, while fields the caller supplies override the
corresponding defaults. -/
theorem c9_config_merge_defaults_and_overrides (c : PageElementConfiguration) :
    ((c.retires = none → (mergedConfig c).retires = some 1) ∧
      ∀ v, c.retires = some v → (mergedConfig c).retires = some v) ∧
    ((c.timeout = none → (mergedConfig c).timeout = some 5000) ∧
      ∀ v, c.timeout = some v → (mergedConfig c).timeout = some v) ∧
    ((c.describe = none → (mergedConfig c).describe = some "找不到定位元素") ∧
      ∀ v, c.describe = some v → (mergedConfig c).describe = some v) ∧
    ((c.index = none → (mergedConfig c).index = some 0) ∧
      ∀ v, c.index = some v → (mergedConfig c).index = some v) ∧
    ((c.element = none → (mergedConfig c).element = none) ∧
      ∀ v, c.element = some v → (mergedConfig c).element = some v) := by
  refine ⟨⟨?_, ?_⟩, ⟨?_, ?_⟩, ⟨?_, ?_⟩, ⟨?_, ?_⟩, ⟨?_, ?_⟩⟩ <;>
    first
    | (intro h
       simp [mergedConfig, objectAssign, DEFAULT_CONFIGURATION, h])
    | (intro v h
       simp [mergedConfig, objectAssign, DEFAULT_CONFIGURATION, h])

/-- Witness for C9: supplying only `timeout` keeps the default
`retires = 1` and overrides `timeout` to 99. -/
theorem c9_witness :
    (mergedConfig { timeout := some 99 }).retires = some 1 ∧
    (mergedConfig { timeout := some 99 }).timeout = some 99 :=
  ⟨(c9_config_merge_defaults_and_overrides { timeout := some 99 }).1.1 rfl,
   (c9_config_merge_defaults_and_overrides { timeout := some 99 }).2.1.2 99 rfl⟩
